import Mathlib

/-!
# OSHA Vision Auditor — verification of the safety-analysis core

A shallow embedding, in Lean 4, of the parts of the `osha-vision-auditor`
repository that the specification's claims are about:

* the risk-scoring formula documented in `docs/architecture.md`
  ("Risk Score Formula": `max_possible = total_seconds × 8 (max weight) ×
  5 (max persons)`, `actual = Σ weight(violation_type)` with helmet = 5 and
  vest = 3, `score = min(100, (actual / max_possible) × 100)`);
* the risk-tier bucketing of `frontend/components/RiskMeter.tsx`;
* the timeline marker layout of `frontend/components/ViolationsTimeline.tsx`
  (both shipped variants);
* the drag-and-drop validation of `frontend/components/VideoUploader.tsx`;
* the live-capture analysis loop of `LiveCaptureRecorder`
  (`analyzeCurrentFrame` with its `analysisInFlightRef` guard);
* the rule engine, orchestrator state machine and report-generator fallback,
  which live in the Python worker (`worker/rule_engine.py`,
  `worker/pipeline.py`, `worker/llm_report.py`); those files are not part of
  the frontend sources, so they are modelled from the specification, as
  flagged on each definition.

Real-number quantities of the program (scores, timestamps, durations,
confidences) are embedded as rationals `ℚ`.
-/

namespace OshaVision

/-! ## Data model -/

/-- Violation categories. The repository stores these as the strings
`helmet_violation` and `vest_violation` (`supabase/schema.sql`,
`frontend/types/index.ts`); the spec refers to the same two categories as
`no_hard_hat` and `no_safety_vest`. -/
inductive ViolationType where
  | helmet_violation
  | vest_violation
deriving DecidableEq, Repr

/-- One violation finding: category, timestamp in seconds, confidence.
Mirrors the `violations` row of `supabase/schema.sql` restricted to the
fields the core algorithms read. -/
structure Violation where
  category : ViolationType
  timestamp : ℚ
  confidence : ℚ
deriving DecidableEq, Repr

/-- Video job status, from `frontend/types/index.ts`:
`"uploaded" | "processing" | "completed" | "failed"`. -/
inductive VideoStatus where
  | uploaded
  | processing
  | completed
  | failed
deriving DecidableEq, Repr

/-! ## Risk Scorer

Embedded from the formula stated in `docs/architecture.md`
("Risk Score Formula"):

```
max_possible = total_seconds × 8 (max weight) × 5 (max persons)
actual = Σ weight(violation_type)   where helmet=5, vest=3
score = min(100, (actual / max_possible) × 100)
```

with the degenerate case of spec §4.4: a zero exposure window
(`duration_seconds == 0`, hence `max_possible == 0`) scores 0. -/

/-- Severity weight per category: helmet = 5, vest = 3. -/
def weight : ViolationType → ℚ
  | .helmet_violation => 5
  | .vest_violation => 3

/-- The `actual` term: sum of the weights of all violations. -/
def actualWeight (vs : List Violation) : ℚ :=
  (vs.map (fun v => weight v.category)).sum

/-- The max-weight constant the architecture doc multiplies by (written
there as "8 (max weight)"). -/
def MAX_WEIGHT : ℚ := 8

/-- The saturation ceiling on concurrent persons ("5 (max persons)"). -/
def MAX_PERSONS : ℚ := 5

/-- The `max_possible` denominator of the risk-score formula. -/
def maxPossible (duration : ℚ) : ℚ :=
  duration * MAX_WEIGHT * MAX_PERSONS

/-- The risk score: `min(100, (actual / max_possible) × 100)`, and 0 when
the denominator is 0. -/
def riskScore (vs : List Violation) (duration : ℚ) : ℚ :=
  if maxPossible duration = 0 then 0
  else min 100 (actualWeight vs / maxPossible duration * 100)

/-- The risk-score formula as the amended claim states it: zero for a
zero duration, otherwise `min(100, 100 × Σweights / (D × 8 × 5))`. -/
def riskScoreAmendedSpec (vs : List Violation) (D : ℚ) : ℚ :=
  if D = 0 then 0
  else min 100 (100 * (vs.map (fun v => weight v.category)).sum / (D * 8 * 5))

/-- The end-to-end scenario of the spec: frames 3–5 each show one person
without a hard hat at confidence 0.8, in a 10-second video. -/
def threeHardHats : List Violation :=
  [ { category := .helmet_violation, timestamp := 3, confidence := 4/5 },
    { category := .helmet_violation, timestamp := 4, confidence := 4/5 },
    { category := .helmet_violation, timestamp := 5, confidence := 4/5 } ]

/-! ## Risk tier (`frontend/components/RiskMeter.tsx`) -/

/-- The three risk tiers of the dashboard gauge. -/
inductive RiskTier where
  | low
  | moderate
  | high
deriving DecidableEq, Repr

/-- `getRiskLabel` from `RiskMeter.tsx`:
`score >= 67` high, else `score >= 34` moderate, else low. -/
def getRiskLabel (score : ℚ) : RiskTier :=
  if score ≥ 67 then .high
  else if score ≥ 34 then .moderate
  else .low

/-- `RiskMeter` clamps the incoming score before labelling:
`Math.max(0, Math.min(100, score))`. -/
def riskMeterLabel (score : ℚ) : RiskTier :=
  getRiskLabel (max 0 (min 100 score))

/-! ## Theorems — risk scorer -/

/-- Claim C1, counterexample: on the spec's own end-to-end input (three
hard-hat violations, 10-second video) the scorer of the architecture doc
returns 3.75, not the claimed 6: the denominator uses the constant 8, not
the largest category weight 5, and no rounding is applied. -/
theorem c1_counterexample_three_hardhats :
    riskScore threeHardHats 10 = 15/4 ∧ riskScore threeHardHats 10 ≠ 6 := by
  constructor <;> norm_num [riskScore, maxPossible, actualWeight, threeHardHats,
    MAX_WEIGHT, MAX_PERSONS, weight]

/-- Claim C1 as amended: for every violation list and duration, the Risk
Scorer returns `min(100, 100 × Σ weights / (D × 8 × 5))` — with the fixed
constant 8 from the architecture doc in the denominator and no rounding —
and 0 when the duration (hence the denominator) is 0; on the 10-second
three-hard-hat scenario the score is 15/4 = 3.75. -/
theorem c1_risk_score_formula :
    (∀ (vs : List Violation) (D : ℚ), riskScore vs D = riskScoreAmendedSpec vs D) ∧
    riskScore threeHardHats 10 = 15/4 := by
  constructor
  · intro vs D
    unfold riskScore riskScoreAmendedSpec maxPossible MAX_WEIGHT MAX_PERSONS
    rcases eq_or_ne D 0 with h | h
    · simp [h]
    · have hden : D * 8 * 5 ≠ 0 := by
        intro h0
        apply h
        have := mul_eq_zero.mp h0
        rcases this with h1 | h2
        · rcases mul_eq_zero.mp h1 with h3 | h4
          · exact h3
          · exact absurd h4 (by norm_num)
        · exact absurd h2 (by norm_num)
      rw [if_neg hden, if_neg h, actualWeight]
      congr 1
      field_simp
      ring
  · norm_num [riskScore, maxPossible, actualWeight, threeHardHats,
      MAX_WEIGHT, MAX_PERSONS, weight]

/-- Claim C7: adding a violation never decreases the risk score. -/
theorem c7_risk_score_monotone (vs : List Violation) (v : Violation) (D : ℚ)
    (hD : 0 < D) : riskScore vs D ≤ riskScore (vs ++ [v]) D := by
  have hmp : maxPossible D ≠ 0 := by
    unfold maxPossible MAX_WEIGHT MAX_PERSONS
    positivity
  have hmppos : 0 < maxPossible D := by
    unfold maxPossible MAX_WEIGHT MAX_PERSONS
    positivity
  unfold riskScore
  rw [if_neg hmp, if_neg hmp]
  have hw : 0 ≤ weight v.category := by
    cases v.category <;> norm_num [weight]
  have hact : actualWeight vs ≤ actualWeight (vs ++ [v]) := by
    unfold actualWeight
    rw [List.map_append, List.sum_append]
    simp [hw]
  have hdiv : actualWeight vs / maxPossible D ≤
      actualWeight (vs ++ [v]) / maxPossible D :=
    div_le_div_of_nonneg_right hact hmppos.le
  exact min_le_min (le_refl 100)
    (mul_le_mul_of_nonneg_right hdiv (by norm_num))

/-- Sample helmet violation used by concrete witnesses. -/
def helmetSample : Violation :=
  ⟨ViolationType.helmet_violation, 0, 1⟩

/-- Witness for C7 at a concrete input: an empty list, one extra helmet
violation, duration 10. -/
theorem c7_risk_score_monotone_witness :
    riskScore [] 10 ≤ riskScore ([] ++ [helmetSample]) 10 :=
  c7_risk_score_monotone [] helmetSample 10 (by norm_num)

/-! ## Theorems — risk tier -/

/-- Claim C3, counterexample: the non-integer score 66.5 is labelled
`moderate` by `getRiskLabel`, although the claim allots `moderate` only to
scores at most 66 (and `high` only from 67), leaving 66.5 outside every
claimed bucket. -/
theorem c3_counterexample_tier_at_66_5 :
    getRiskLabel (133/2) = RiskTier.moderate ∧ ¬ ((133:ℚ)/2 ≤ 66) := by
  constructor
  · norm_num [getRiskLabel]
  · norm_num

/-- Claim C3 as amended: on `[0,100]`, the tier is `low` exactly when the
score is below 34, `moderate` exactly when it is at least 34 and below 67,
and `high` exactly when it is at least 67. -/
theorem c3_risk_tier_partition (s : ℚ) (h0 : 0 ≤ s) (h1 : s ≤ 100) :
    (getRiskLabel s = RiskTier.low ↔ s < 34) ∧
    (getRiskLabel s = RiskTier.moderate ↔ 34 ≤ s ∧ s < 67) ∧
    (getRiskLabel s = RiskTier.high ↔ 67 ≤ s) := by
  rcases lt_or_le s 34 with hA | hA
  · have hl : getRiskLabel s = RiskTier.low := by
      have h67 : ¬ s ≥ 67 := not_le.mpr (by linarith)
      have h34 : ¬ s ≥ 34 := not_le.mpr hA
      unfold getRiskLabel
      rw [if_neg h67, if_neg h34]
    exact ⟨⟨fun _ => hA, fun _ => hl⟩,
      ⟨fun h => absurd (hl.symm.trans h) (by decide),
       fun h => absurd h.1 (not_le.mpr hA)⟩,
      ⟨fun h => absurd (hl.symm.trans h) (by decide),
       fun h => absurd h (not_le.mpr (by linarith))⟩⟩
  · rcases lt_or_le s 67 with hB | hB
    · have hl : getRiskLabel s = RiskTier.moderate := by
        have h67 : ¬ s ≥ 67 := not_le.mpr hB
        unfold getRiskLabel
        rw [if_neg h67, if_pos hA]
      exact ⟨⟨fun h => absurd (hl.symm.trans h) (by decide),
         fun h => absurd hA (not_le.mpr h)⟩,
        ⟨fun _ => ⟨hA, hB⟩, fun _ => hl⟩,
        ⟨fun h => absurd (hl.symm.trans h) (by decide),
         fun h => absurd h (not_le.mpr hB)⟩⟩
    · have hl : getRiskLabel s = RiskTier.high := by
        unfold getRiskLabel
        rw [if_pos hB]
      exact ⟨⟨fun h => absurd (hl.symm.trans h) (by decide),
         fun h => absurd hB (not_le.mpr (by linarith))⟩,
        ⟨fun h => absurd (hl.symm.trans h) (by decide),
         fun h => absurd hB (not_le.mpr h.2)⟩,
        ⟨fun _ => hB, fun _ => hl⟩⟩

/-- Witness for C3 at the concrete score 50. -/
theorem c3_risk_tier_partition_witness :
    getRiskLabel 50 = RiskTier.moderate :=
  (c3_risk_tier_partition 50 (by norm_num) (by norm_num)).2.1.mpr
    ⟨by norm_num, by norm_num⟩

/-! ## Rule Engine

Modelled from the spec: `worker/rule_engine.py` is not among the available
sources. Spec §4.3 — for each Person, absence of the required hard hat
yields a `no_hard_hat` violation (repository category string
`helmet_violation`), absence of the required vest yields `no_safety_vest`
(`vest_violation`); the violation inherits the frame timestamp and the
Detector's confidence for the failed category. -/

/-- One detected person with per-category compliance state, per spec §3
(DetectionResult): a bounding region and per-category compliance booleans
with confidences. -/
structure Person where
  bbox : ℚ × ℚ × ℚ × ℚ
  has_hard_hat : Bool
  has_safety_vest : Bool
  hardhat_confidence : ℚ
  vest_confidence : ℚ
deriving DecidableEq, Repr

/-- Modelled from the spec: evaluate the fixed ruleset on one person at
one timestamp (spec §4.3). -/
def evaluatePerson (t : ℚ) (p : Person) : List Violation :=
  (if p.has_hard_hat then []
   else [⟨.helmet_violation, t, p.hardhat_confidence⟩]) ++
  (if p.has_safety_vest then []
   else [⟨.vest_violation, t, p.vest_confidence⟩])

/-- Modelled from the spec: evaluate one frame's DetectionResult — each
person independently contributes its violations (spec §4.3). -/
def evaluateFrame (t : ℚ) (ps : List Person) : List Violation :=
  (ps.map (evaluatePerson t)).flatten

/-- Claim C2: a person lacking only the hard hat yields exactly one
violation — category `no_hard_hat` (repository string `helmet_violation`),
timestamp of the frame, confidence equal to the detector's hard-hat
confidence — and a fully compliant person yields zero violations. -/
theorem c2_rule_engine_hard_hat (t : ℚ) (p : Person) :
    (p.has_hard_hat = false → p.has_safety_vest = true →
      evaluatePerson t p = [⟨ViolationType.helmet_violation, t, p.hardhat_confidence⟩]) ∧
    (p.has_hard_hat = true → p.has_safety_vest = true →
      evaluatePerson t p = []) := by
  constructor
  · intro hh hv
    simp [evaluatePerson, hh, hv]
  · intro hh hv
    simp [evaluatePerson, hh, hv]

/-- Witness for C2: a concrete person without a hard hat but with a vest
produces the single expected violation. -/
theorem c2_rule_engine_hard_hat_witness :
    evaluatePerson 3 ⟨(0, 0, 1, 1), false, true, 4/5, 9/10⟩ =
      [⟨ViolationType.helmet_violation, 3, 4/5⟩] :=
  (c2_rule_engine_hard_hat 3 ⟨(0, 0, 1, 1), false, true, 4/5, 9/10⟩).1 rfl rfl

/-! ## Pipeline Orchestrator state machine

Modelled from the spec: `worker/pipeline.py` and the backend routers are
not among the available sources. Spec §4.6 — `uploaded → processing →
{completed | failed}` with `completed` and `failed` terminal; §6 —
`begin(videoJobId) → accepted | rejected(already-processing) |
rejected(not-found)`; the architecture doc's request flow additionally
verifies `status=uploaded` before starting a run. -/

/-- Events that drive a VideoJob through the orchestrator. -/
inductive OrchEvent where
  | beginRun
  | finishSuccess
  | finishFailure
  | cancel
deriving DecidableEq, Repr

/-- Modelled from the spec: the orchestrator's per-job transition
function; `none` means the event is rejected and the stored status does
not change. -/
def orchStep : VideoStatus → OrchEvent → Option VideoStatus
  | .uploaded, .beginRun => some .processing
  | .processing, .finishSuccess => some .completed
  | .processing, .finishFailure => some .failed
  | .processing, .cancel => some .failed
  | _, _ => none

/-- One accepted orchestrator transition. -/
def OrchTrans (s t : VideoStatus) : Prop :=
  ∃ e, orchStep s e = some t

/-- Zero or more accepted orchestrator transitions. -/
def OrchReach : VideoStatus → VideoStatus → Prop :=
  Relation.ReflTransGen OrchTrans

/-- Progress rank of a status: transitions strictly increase it. -/
def statusRank : VideoStatus → Nat
  | .uploaded => 0
  | .processing => 1
  | .completed => 2
  | .failed => 2

theorem orchTrans_rank_lt {s t : VideoStatus} (h : OrchTrans s t) :
    statusRank s < statusRank t := by
  obtain ⟨e, he⟩ := h
  cases s <;> cases e <;> simp [orchStep] at he <;> subst he <;> decide

theorem orchReach_rank_le {s t : VideoStatus} (h : OrchReach s t) :
    statusRank s ≤ statusRank t := by
  induction h with
  | refl => exact le_refl _
  | tail _ hstep ih => exact le_of_lt (lt_of_le_of_lt ih (orchTrans_rank_lt hstep))

theorem orchReach_ne_rank_lt {s t : VideoStatus} (h : OrchReach s t) (hne : s ≠ t) :
    statusRank s < statusRank t := by
  induction h with
  | refl => exact absurd rfl hne
  | tail hr hstep _ =>
    exact lt_of_le_of_lt (orchReach_rank_le hr) (orchTrans_rank_lt hstep)

/-- Claim C4: orchestrator status transitions only move forward along
`uploaded → processing → {completed, failed}` — every accepted transition
strictly increases the progress rank, a status once left is never
reentered (reachability is antisymmetric), and `completed` and `failed`
admit no further transition. -/
theorem c4_status_forward_only (s t : VideoStatus) :
    (OrchTrans s t → statusRank s < statusRank t) ∧
    (OrchReach s t → OrchReach t s → s = t) ∧
    (OrchTrans VideoStatus.completed t → False) ∧
    (OrchTrans VideoStatus.failed t → False) := by
  refine ⟨fun h => orchTrans_rank_lt h, fun h1 h2 => ?_, fun h => ?_, fun h => ?_⟩
  · by_contra hne
    have l1 := orchReach_ne_rank_lt h1 hne
    have l2 := orchReach_ne_rank_lt h2 (Ne.symm hne)
    omega
  · obtain ⟨e, he⟩ := h
    cases e <;> simp [orchStep] at he
  · obtain ⟨e, he⟩ := h
    cases e <;> simp [orchStep] at he

/-- Witness for C4: the concrete transition `uploaded → processing`
strictly increases the rank. -/
theorem c4_status_forward_only_witness :
    statusRank VideoStatus.uploaded < statusRank VideoStatus.processing :=
  (c4_status_forward_only VideoStatus.uploaded VideoStatus.processing).1
    ⟨OrchEvent.beginRun, rfl⟩

/-- Result of the `begin` trigger, per spec §6 and §7. -/
inductive BeginResult where
  | accepted
  | alreadyProcessingError
  | invalidState
deriving DecidableEq, Repr

/-- Modelled from the spec: `begin` on a job in a given status — accepted
only from `uploaded` (starting the run), rejected with
`AlreadyProcessingError` on a job already `processing`, rejected as
invalid otherwise; the returned status is the job's status after the
call. -/
def beginJob : VideoStatus → BeginResult × VideoStatus
  | .uploaded => (.accepted, .processing)
  | .processing => (.alreadyProcessingError, .processing)
  | .completed => (.invalidState, .completed)
  | .failed => (.invalidState, .failed)

/-- Claim C5: a second `begin` on a job that is already `processing`
returns `AlreadyProcessingError` and leaves the status unchanged (a
rejection, not a job failure), and exactly one terminal state is reachable
— from `processing` only `processing`, `completed` or `failed` are
reachable, and each terminal state reaches only itself, so no second
pipeline run and no second terminal outcome exist for the job. -/
theorem c5_begin_idempotent_reject :
    beginJob VideoStatus.processing =
      (BeginResult.alreadyProcessingError, VideoStatus.processing) ∧
    (∀ t, OrchReach VideoStatus.processing t →
      t = VideoStatus.processing ∨ t = VideoStatus.completed ∨ t = VideoStatus.failed) ∧
    (∀ t, OrchReach VideoStatus.completed t → t = VideoStatus.completed) ∧
    (∀ t, OrchReach VideoStatus.failed t → t = VideoStatus.failed) := by
  have hterm : ∀ (s t : VideoStatus), statusRank s = 2 → OrchReach s t → t = s := by
    intro s t hs h
    rcases Relation.ReflTransGen.cases_head h with rfl | ⟨u, hsu, _⟩
    · rfl
    · have := orchTrans_rank_lt hsu
      have hle : statusRank u ≤ 2 := by cases u <;> decide
      omega
  refine ⟨rfl, fun t h => ?_, fun t h => hterm _ t rfl h, fun t h => hterm _ t rfl h⟩
  rcases Relation.ReflTransGen.cases_head h with rfl | ⟨u, hsu, hut⟩
  · exact Or.inl rfl
  · obtain ⟨e, he⟩ := hsu
    cases e <;> simp [orchStep] at he <;> subst he
    · exact Or.inr (Or.inl (hterm _ t rfl hut))
    · exact Or.inr (Or.inr (hterm _ t rfl hut))
    · exact Or.inr (Or.inr (hterm _ t rfl hut))

/-- Witness for C5: after the run finishes successfully, the job reaches
`completed` and nothing past it. -/
theorem c5_begin_idempotent_reject_witness :
    VideoStatus.completed = VideoStatus.completed ∨
      VideoStatus.completed = VideoStatus.processing ∨
      VideoStatus.completed = VideoStatus.failed := by
  have h := c5_begin_idempotent_reject.2.1 VideoStatus.completed
    (Relation.ReflTransGen.single ⟨OrchEvent.finishSuccess, rfl⟩)
  tauto

/-! ## Report Generator

Modelled from the spec: `worker/llm_report.py` is not among the available
sources. Spec §4.5 — the primary path delegates to the generative backend;
when the backend raises `ExternalBackendError` (unreachable, rate-limited,
error response) or no credential is configured (`OPENAI_API_KEY` is
optional per the README), a deterministic templated report is built purely
from the structured data, and a report failure never fails the VideoJob. -/

/-- Substring containment on strings, expressed over the underlying
character lists. -/
def strContains (s pat : String) : Prop :=
  ∃ a b : List Char, s.data = a ++ pat.data ++ b

theorem dataAppendEq (s t : String) : (s ++ t).data = s.data ++ t.data := by
  cases s
  cases t
  rfl

theorem strContains_self (s : String) : strContains s s :=
  ⟨[], [], by simp⟩

theorem strContains_left (a b pat : String) (h : strContains b pat) :
    strContains (a ++ b) pat := by
  obtain ⟨x, y, hxy⟩ := h
  exact ⟨a.data ++ x, y, by rw [dataAppendEq, hxy]; simp [List.append_assoc]⟩

theorem strContains_right (a b pat : String) (h : strContains a pat) :
    strContains (a ++ b) pat := by
  obtain ⟨x, y, hxy⟩ := h
  exact ⟨x, y ++ b.data, by rw [dataAppendEq, hxy]; simp [List.append_assoc]⟩

/-- Display name of a risk tier, as the report prints it. -/
def tierName : RiskTier → String
  | .low => "low"
  | .moderate => "moderate"
  | .high => "high"

/-- Display name of a violation category, as the report prints it. -/
def categoryName : ViolationType → String
  | .helmet_violation => "helmet_violation"
  | .vest_violation => "vest_violation"

/-- The error raised when the generative backend is unreachable,
rate-limited, or returns an error (spec §7). -/
structure ExternalBackendError where
  message : String
deriving DecidableEq, Repr

/-- Concatenation of a list of strings. -/
def concatAll (l : List String) : String :=
  l.foldr (fun a b => a ++ b) ""

/-- Modelled from the spec: one templated line per violation finding. -/
def violationLine (v : Violation) : String :=
  "- " ++ categoryName v.category ++ "\n"

/-- Modelled from the spec: the findings section of the templated
fallback report. -/
def findingsSection : List Violation → String
  | [] => "No violations were detected.\n"
  | v :: rest => "Findings:\n" ++ (violationLine v ++ concatAll (rest.map violationLine))

/-- Fixed header of the fallback report, ending right before the tier. -/
def reportHead : String :=
  "OSHA compliance summary (offline fallback)\nRisk tier: "

/-- Trailing part of the fallback report after the tier. -/
def reportTail (vs : List Violation) : String :=
  "\n" ++ findingsSection vs ++
    "Recommended action: ensure all personnel wear required PPE.\n"

/-- Modelled from the spec: the deterministic templated fallback report,
built purely from the structured data (spec §4.5). -/
def fallbackReport (tier : RiskTier) (vs : List Violation) : String :=
  reportHead ++ tierName tier ++ reportTail vs

/-- Modelled from the spec: the Report Generator — the backend's text when
a credential is configured and the call succeeds, the deterministic
fallback otherwise. -/
def generateReport (apiKey : Option String)
    (backend : Except ExternalBackendError String)
    (tier : RiskTier) (vs : List Violation) : String :=
  match apiKey with
  | none => fallbackReport tier vs
  | some _ =>
    match backend with
    | .ok text => text
    | .error _ => fallbackReport tier vs

/-- Modelled from the spec: the report stage of the pipeline — it yields
the report text and always lets the job finish `completed`; a report
error degrades to the fallback and never fails the VideoJob (spec §4.5). -/
def reportStage (apiKey : Option String)
    (backend : Except ExternalBackendError String)
    (tier : RiskTier) (vs : List Violation) : String × VideoStatus :=
  (generateReport apiKey backend tier vs, VideoStatus.completed)

theorem fallback_nonempty (tier : RiskTier) (vs : List Violation) :
    fallbackReport tier vs ≠ "" := by
  intro h
  have hdata : (fallbackReport tier vs).data = [] := by rw [h]
  rw [fallbackReport, dataAppendEq, dataAppendEq] at hdata
  rcases List.append_eq_nil.mp hdata with ⟨h1, _⟩
  rcases List.append_eq_nil.mp h1 with ⟨h2, _⟩
  exact absurd h2 (by decide)

theorem fallback_has_tier (tier : RiskTier) (vs : List Violation) :
    strContains (fallbackReport tier vs) (tierName tier) := by
  unfold fallbackReport
  exact strContains_right _ _ _ (strContains_left _ _ _ (strContains_self _))

theorem fallback_has_category (tier : RiskTier) (v : Violation)
    (rest : List Violation) :
    strContains (fallbackReport tier (v :: rest)) (categoryName v.category) := by
  have hline : strContains (violationLine v) (categoryName v.category) := by
    unfold violationLine
    exact strContains_right _ _ _ (strContains_left _ _ _ (strContains_self _))
  have hfind : strContains (findingsSection (v :: rest)) (categoryName v.category) := by
    rw [findingsSection]
    exact strContains_left _ _ _ (strContains_right _ _ _ hline)
  unfold fallbackReport reportTail
  exact strContains_left _ _ _ (strContains_right _ _ _ (strContains_left _ _ _ hfind))

/-- Claim C6: when no credential is configured or the backend raises
`ExternalBackendError`, the Report Generator returns the deterministic
fallback: non-empty text containing the job's risk tier and, when
violations exist, at least one violation category name; and the report
stage never moves the VideoJob to `failed`. -/
theorem c6_report_fallback (tier : RiskTier) (vs : List Violation)
    (apiKey : Option String) (backend : Except ExternalBackendError String)
    (hdeg : apiKey = none ∨ ∃ e, backend = Except.error e) :
    generateReport apiKey backend tier vs = fallbackReport tier vs ∧
    generateReport apiKey backend tier vs ≠ "" ∧
    strContains (generateReport apiKey backend tier vs) (tierName tier) ∧
    (vs ≠ [] → ∃ v, v ∈ vs ∧
      strContains (generateReport apiKey backend tier vs) (categoryName v.category)) ∧
    (reportStage apiKey backend tier vs).2 ≠ VideoStatus.failed := by
  have hfb : generateReport apiKey backend tier vs = fallbackReport tier vs := by
    rcases hdeg with h | ⟨e, h⟩
    · rw [h, generateReport]
    · cases apiKey with
      | none => rw [generateReport]
      | some k => rw [h, generateReport]
  refine ⟨hfb, ?_, ?_, ?_, by simp [reportStage]⟩
  · rw [hfb]
    exact fallback_nonempty tier vs
  · rw [hfb]
    exact fallback_has_tier tier vs
  · intro hne
    cases vs with
    | nil => exact absurd rfl hne
    | cons v rest =>
      refine ⟨v, List.mem_cons_self v rest, ?_⟩
      rw [hfb]
      exact fallback_has_category tier v rest

/-- Witness for C6: with no credential configured, the generated report
for a single helmet violation at high risk contains the tier name. -/
theorem c6_report_fallback_witness :
    strContains
      (generateReport none (Except.error ⟨"backend down"⟩)
        RiskTier.high [helmetSample])
      (tierName RiskTier.high) :=
  (c6_report_fallback RiskTier.high [helmetSample] none
    (Except.error ⟨"backend down"⟩) (Or.inl rfl)).2.2.1

/-! ## Live-capture analysis loop (`LiveCaptureRecorder`)

Embedded from `analyzeCurrentFrame`: a timer tick calls
`analyzeCurrentFrame`, which returns immediately when
`analysisInFlightRef.current` is set; otherwise it awaits
`capturePreviewFrame()` and only then sets the flag and issues the
`analyzeFrame` request; the `finally` block clears the flag. The state
tracks the flag, the number of calls still awaiting their frame capture
(guard already passed, flag not yet set), and the number of outstanding
`analyzeFrame` requests. -/

/-- State of the live-capture loop during recording. -/
structure LiveState where
  inFlight : Bool
  capturing : Nat
  outstanding : Nat
deriving DecidableEq, Repr

/-- Events of the loop: a timer tick, completion of a frame capture
(non-null blob), a null capture, and completion of an `analyzeFrame`
request. -/
inductive LiveEvent where
  | tick
  | captureDone
  | captureNull
  | requestDone
deriving DecidableEq, Repr

/-- One step of the loop, following `analyzeCurrentFrame` line by line:
a tick is skipped when the flag is set, otherwise it starts a capture;
when a capture finishes, the flag is set and the request is issued; when a
request finishes, the flag is cleared. -/
def liveStep (s : LiveState) : LiveEvent → LiveState
  | .tick =>
      if s.inFlight then s
      else { s with capturing := s.capturing + 1 }
  | .captureDone =>
      if s.capturing = 0 then s
      else { inFlight := true, capturing := s.capturing - 1,
             outstanding := s.outstanding + 1 }
  | .captureNull =>
      if s.capturing = 0 then s
      else { s with capturing := s.capturing - 1 }
  | .requestDone =>
      if s.outstanding = 0 then s
      else { s with inFlight := false, outstanding := s.outstanding - 1 }

/-- Run the loop from the initial state (flag clear, nothing pending). -/
def liveRun (es : List LiveEvent) : LiveState :=
  es.foldl liveStep ⟨false, 0, 0⟩

/-- Claim C8, evaluated at the failing schedule: a tick with the in-flight
flag set is indeed skipped, but when a second tick fires while the first
call is still awaiting its frame capture — before the flag is set — both
calls go on to issue a request, leaving two `analyzeFrame` calls
outstanding at once. -/
theorem c8_overlap_failing_trace :
    liveStep ⟨true, 0, 0⟩ LiveEvent.tick = ⟨true, 0, 0⟩ ∧
    (liveRun [LiveEvent.tick, LiveEvent.tick,
      LiveEvent.captureDone, LiveEvent.captureDone]).outstanding = 2 := by
  constructor
  · rfl
  · rfl

/-! ## Violations timeline (`frontend/components/ViolationsTimeline.tsx`)

Both shipped variants return `null` when `duration <= 0`; the first lays a
marker at `(v.timestamp / duration) * 100` percent, the second additionally
clamps with `Math.max(0, Math.min(100, ...))`. The embedding returns the
list of marker positions, or `none` for the null render. -/

/-- First variant: unclamped marker positions. -/
def violationsTimeline (vs : List Violation) (duration : ℚ) : Option (List ℚ) :=
  if duration ≤ 0 then none
  else some (vs.map (fun v => v.timestamp / duration * 100))

/-- Second variant: positions clamped into `[0, 100]`. -/
def violationsTimelineClamped (vs : List Violation) (duration : ℚ) :
    Option (List ℚ) :=
  if duration ≤ 0 then none
  else some (vs.map (fun v => max 0 (min 100 (v.timestamp / duration * 100))))

/-- Claim C9: with a non-positive duration both timeline variants render
nothing, so the marker expression only ever divides by a strictly positive
duration; and every marker position the clamping variant renders lies in
`[0, 100]`, even for timestamps outside `[0, duration]`. -/
theorem c9_timeline_guard (vs : List Violation) (d : ℚ) :
    (d ≤ 0 → violationsTimeline vs d = none ∧
      violationsTimelineClamped vs d = none) ∧
    (∀ ps, violationsTimelineClamped vs d = some ps →
      ∀ p ∈ ps, 0 ≤ p ∧ p ≤ 100) := by
  constructor
  · intro h
    constructor
    · rw [violationsTimeline, if_pos h]
    · rw [violationsTimelineClamped, if_pos h]
  · intro ps hps p hp
    rw [violationsTimelineClamped] at hps
    by_cases hd : d ≤ 0
    · rw [if_pos hd] at hps
      exact absurd hps (by simp)
    · rw [if_neg hd] at hps
      obtain ⟨v, _, hv⟩ := List.mem_map.mp (Option.some_injective _ hps ▸ hp)
      constructor
      · rw [← hv]
        exact le_max_left 0 _
      · rw [← hv]
        exact max_le (by norm_num) (min_le_left 100 _)

/-- Witness for C9: a violation at 200 s on a 10-second timeline is
clamped to position 100, which lies in the allowed range. -/
theorem c9_timeline_guard_witness :
    (0:ℚ) ≤ 100 ∧ (100:ℚ) ≤ 100 := by
  have heval :
      violationsTimelineClamped [⟨ViolationType.helmet_violation, 200, 9/10⟩] 10 =
        some [100] := by
    rw [violationsTimelineClamped, if_neg (by norm_num)]
    norm_num
  exact (c9_timeline_guard [⟨ViolationType.helmet_violation, 200, 9/10⟩] 10).2
    [100] heval 100 (by simp)

/-! ## Video uploader (`frontend/components/VideoUploader.tsx`)

Embedded from both shipped variants (identical logic): `useDropzone` with
an `accept` map for `.mp4`, `.mov`, `.avi`, `.webm`, `.mkv` and
`maxSize` of 100 MB routes a dropped file into `acceptedFiles` or
`rejectedFiles`; `onDrop` shows an error for any rejection, re-checks
`file.size > MAX_SIZE_BYTES`, and only then stores the file and calls
`onFileSelected(file)`. -/

/-- A dropped file: name and size in bytes. -/
structure DroppedFile where
  filename : String
  size : Nat
deriving DecidableEq, Repr

/-- The extensions of the `accept` map passed to `useDropzone`. -/
def acceptedExtensions : List String :=
  [".mp4", ".mov", ".avi", ".webm", ".mkv"]

/-- Whether a file name carries one of the accepted video extensions. -/
def hasAcceptedExtension (name : String) : Bool :=
  acceptedExtensions.any (fun e => name.endsWith e)

/-- `MAX_SIZE_BYTES = 100 * 1024 * 1024` from `VideoUploader.tsx`. -/
def MAX_SIZE_BYTES : Nat := 100 * 1024 * 1024

/-- The dropzone's own filter: accepted extension and size within
`maxSize`. -/
def dropzoneAccepts (f : DroppedFile) : Bool :=
  hasAcceptedExtension f.filename && decide (f.size ≤ MAX_SIZE_BYTES)

/-- Outcome of a drop: `onFileSelected` invoked with the file, an error
message shown, or nothing (empty drop). -/
inductive UploadOutcome where
  | selected (f : DroppedFile)
  | errorShown
  | noAction
deriving DecidableEq, Repr

/-- `onDrop` from `VideoUploader.tsx`: any rejected file shows an error
and returns; an absent first accepted file returns; an oversized file
shows the size error; otherwise the file is selected. -/
def videoUploaderOnDrop (accepted rejected : List DroppedFile) : UploadOutcome :=
  if rejected.length > 0 then .errorShown
  else
    match accepted.head? with
    | none => .noAction
    | some f => if f.size > MAX_SIZE_BYTES then .errorShown else .selected f

/-- Dropping a single file: the dropzone filter routes it to `onDrop` as
accepted or rejected. -/
def processDrop (f : DroppedFile) : UploadOutcome :=
  if dropzoneAccepts f then videoUploaderOnDrop [f] []
  else videoUploaderOnDrop [] [f]

/-- Claim C10: `onFileSelected` is invoked only for files of size at most
100 MB carrying an accepted video extension, and a file exceeding the
limit produces the error message instead — `onFileSelected` is never
called for it. -/
theorem c10_uploader_validation (f g : DroppedFile) :
    (processDrop f = UploadOutcome.selected g →
      g = f ∧ f.size ≤ MAX_SIZE_BYTES ∧ hasAcceptedExtension f.filename = true) ∧
    (f.size > MAX_SIZE_BYTES → processDrop f = UploadOutcome.errorShown) := by
  by_cases hacc : dropzoneAccepts f = true
  · obtain ⟨hext, hsize⟩ := Bool.and_eq_true_iff.mp hacc
    have hsz : f.size ≤ MAX_SIZE_BYTES := of_decide_eq_true hsize
    have heval : processDrop f = UploadOutcome.selected f := by
      rw [processDrop, if_pos hacc, videoUploaderOnDrop]
      simp [Nat.not_lt.mpr hsz]
    constructor
    · intro h
      rw [heval] at h
      cases h
      exact ⟨rfl, hsz, hext⟩
    · intro h
      exact absurd h (Nat.not_lt.mpr hsz)
  · have heval : processDrop f = UploadOutcome.errorShown := by
      rw [processDrop, if_neg hacc, videoUploaderOnDrop]
      simp
    constructor
    · intro h
      rw [heval] at h
      cases h
    · intro _
      exact heval

/-- Witness for C10: a 110 MB mp4 produces the error and is not passed to
`onFileSelected`. -/
theorem c10_uploader_validation_witness :
    processDrop ⟨"site.mp4", 110 * 1024 * 1024⟩ = UploadOutcome.errorShown :=
  (c10_uploader_validation ⟨"site.mp4", 110 * 1024 * 1024⟩
    ⟨"site.mp4", 110 * 1024 * 1024⟩).2 (by norm_num [MAX_SIZE_BYTES])

end OshaVision
